import Mathlib

/-!
Shallow embedding of the ticket-tracking / API-observability backend
(`app/crud.py`, `app/models.py`, `app/schemas.py`, `app/enums.py`).

Python strings are modelled as lists of characters (`PyStr`); enum-valued
columns are modelled as `String`; `DateTime` values as `Nat` (an abstract
monotone clock supplied by the caller as `now`); `Float` response times as
`ℚ`.  The SQLAlchemy session is modelled as an explicit store: a list of
rows in insertion order together with the autoincrement counter for the
primary key.
-/

/-- A Python `str` modelled as its list of characters. -/
abbrev PyStr := List Char

/-- Model of `s.lower()` — per-character lowercasing. -/
def pyLower (s : PyStr) : PyStr := s.map Char.toLower

/-- Model of `s.upper()` — per-character uppercasing, on the `String` model used for
enum-like columns. -/
def strUpper (s : String) : String := ⟨s.data.map Char.toUpper⟩

/-- Python's `kw in text`: `kw` occurs in `text` as a contiguous substring. -/
def hasSub : PyStr → PyStr → Bool
  | [], kw => kw.isEmpty
  | c :: rest, kw => List.isPrefixOf kw (c :: rest) || hasSub rest kw

/-- Model of `any(k in text for k in ks)` over a tuple of string-literal keywords. -/
def kwAny (text : PyStr) (ks : List String) : Bool :=
  ks.any (fun k => hasSub text k.data)

/-- Model of `crud.classify_text`: rule-based classifier returning
`(category, priority)` from the lowercased concatenation
`title + " " + description`. -/
def classify_text (title description : PyStr) : String × String :=
  let text := pyLower (title ++ ' ' :: description)
  let category :=
    if kwAny text ["error", "exception", "traceback", "stacktrace"] then "bug"
    else if kwAny text ["feature", "enhancement", "add", "support"] then "feature_request"
    else if kwAny text ["bill", "invoice", "payment", "charge"] then "billing"
    else "support"
  let priority :=
    if kwAny text ["urgent", "asap", "critical", "down"] then "high"
    else "medium"
  (category, priority)

/-- Reference classifier transcribed from the specification's words
(§4.1): lowercase the concatenation of title and description; category is
`bug` if any of {error, exception, traceback, stacktrace} is present, else
`feature_request` if any of {feature, enhancement, add, support} is
present, else `billing` if any of {bill, invoice, payment, charge} is
present, else `support`; priority is `high` if any of
{urgent, asap, critical, down} is present, else `medium`. -/
def classifyReference (title description : PyStr) : String × String :=
  let text := pyLower (title ++ ' ' :: description)
  let category :=
    if ["error", "exception", "traceback", "stacktrace"].any
        (fun k => hasSub text k.data) then "bug"
    else if ["feature", "enhancement", "add", "support"].any
        (fun k => hasSub text k.data) then "feature_request"
    else if ["bill", "invoice", "payment", "charge"].any
        (fun k => hasSub text k.data) then "billing"
    else "support"
  let priority :=
    if ["urgent", "asap", "critical", "down"].any
        (fun k => hasSub text k.data) then "high"
    else "medium"
  (category, priority)

/-- Row of the `tickets` table (`models.Ticket`). -/
structure Ticket where
  id : Nat
  title : PyStr
  description : PyStr
  category : String
  priority : String
  status : String
  reporter_email : Option String
  created_at : Nat
  resolved_at : Option Nat
deriving Repr, DecidableEq

/-- Model of `schemas.TicketCreate`. -/
structure TicketCreate where
  title : PyStr
  description : PyStr
  reporter_email : Option String
deriving Repr, DecidableEq

/-- Model of `schemas.TicketUpdate`: each field is `none` when unset in the payload
(pydantic `exclude_unset`); `reporter_email` distinguishes "omitted"
(`none`) from "explicitly cleared" (`some none`). -/
structure TicketUpdate where
  title : Option PyStr := none
  description : Option PyStr := none
  reporter_email : Option (Option String) := none
  category : Option String := none
  priority : Option String := none
  status : Option String := none
deriving Repr, DecidableEq

/-- The ticket store: rows in insertion order plus the autoincrement
primary-key counter. -/
structure TicketDB where
  tickets : List Ticket
  nextId : Nat
deriving Repr, DecidableEq

def emptyTicketDB : TicketDB := ⟨[], 1⟩

/-- Model of `crud.create_ticket`: classify, then insert with `status = open` and a
fresh primary key; `created_at` is the server clock `now`. -/
def create_ticket (db : TicketDB) (ticket_in : TicketCreate) (now : Nat) :
    TicketDB × Ticket :=
  let cp := classify_text ticket_in.title ticket_in.description
  let t : Ticket :=
    { id := db.nextId
      title := ticket_in.title
      description := ticket_in.description
      category := cp.1
      priority := cp.2
      status := "open"
      reporter_email := ticket_in.reporter_email
      created_at := now
      resolved_at := none }
  (⟨db.tickets ++ [t], db.nextId + 1⟩, t)

/-- Model of `crud.get_ticket`: first row whose id matches. -/
def get_ticket (db : TicketDB) (ticket_id : Nat) : Option Ticket :=
  db.tickets.find? (fun t => t.id == ticket_id)

/-- Replace the first element satisfying `p` by its image under `f`
(in-place mutation of the row found by `get_ticket`). -/
def updateFirst (p : α → Bool) (f : α → α) : List α → List α
  | [] => []
  | a :: as => if p a then f a :: as else a :: updateFirst p f as

/-- The field mutation performed by `crud.resolve_ticket`. -/
def resolveFields (now : Nat) (t : Ticket) : Ticket :=
  { t with status := "resolved", resolved_at := some now }

/-- Model of `crud.resolve_ticket`: set `status = resolved` and
`resolved_at = func.now()` on the row found by id; `none` when not found. -/
def resolve_ticket (db : TicketDB) (ticket_id : Nat) (now : Nat) :
    Option Ticket × TicketDB :=
  match get_ticket db ticket_id with
  | none => (none, db)
  | some t =>
    (some (resolveFields now t),
      ⟨updateFirst (fun u => u.id == ticket_id) (resolveFields now) db.tickets,
        db.nextId⟩)

/-- The `setattr` loop of `crud.update_ticket` over
`model_dump(exclude_unset=True)`: each supplied field overwrites, each
unset field is left untouched. -/
def applyUpdate (u : TicketUpdate) (t : Ticket) : Ticket :=
  { t with
    title := u.title.getD t.title
    description := u.description.getD t.description
    reporter_email := u.reporter_email.getD t.reporter_email
    category := u.category.getD t.category
    priority := u.priority.getD t.priority
    status := u.status.getD t.status }

/-- Model of `crud.update_ticket`. -/
def update_ticket (db : TicketDB) (ticket_id : Nat) (u : TicketUpdate) :
    Option Ticket × TicketDB :=
  match get_ticket db ticket_id with
  | none => (none, db)
  | some t =>
    (some (applyUpdate u t),
      ⟨updateFirst (fun x => x.id == ticket_id) (applyUpdate u) db.tickets,
        db.nextId⟩)

/-- Model of `crud.delete_ticket`: remove the row found by id, reporting whether a
row existed. -/
def delete_ticket (db : TicketDB) (ticket_id : Nat) : Bool × TicketDB :=
  match get_ticket db ticket_id with
  | none => (false, db)
  | some _ =>
    (true, ⟨db.tickets.eraseP (fun t => t.id == ticket_id), db.nextId⟩)

/-- SQL `column ILIKE '%pat%'`: case-insensitive substring containment. -/
def ilike (field pat : PyStr) : Bool := hasSub (pyLower field) (pyLower pat)

/-- Lexicographic order on character lists: the text comparison used when
sorting a string-valued column. -/
def charListLe : PyStr → PyStr → Bool
  | [], _ => true
  | _ :: _, [] => false
  | a :: as, b :: bs => if a = b then charListLe as bs else decide (a < b)

/-- Insert into a list already ordered by `le`. -/
def insertOrdered (le : α → α → Bool) (a : α) : List α → List α
  | [] => [a]
  | b :: bs => if le a b then a :: b :: bs else b :: insertOrdered le a bs

/-- The store's `ORDER BY`: a deterministic (insertion) sort by `le`. -/
def orderBy (le : α → α → Bool) : List α → List α
  | [] => []
  | a :: as => insertOrdered le a (orderBy le as)

/-- The conjunction of filters of `crud.search_and_filter_tickets`: an
omitted (`none`) or empty-string filter (Python falsiness of `if search:`)
imposes nothing; `search` matches `ILIKE` on title or description. -/
def ticketMatches (search : Option PyStr) (category status priority : Option String)
    (t : Ticket) : Bool :=
  (match search with
   | none => true
   | some s => if s = [] then true else (ilike t.title s || ilike t.description s)) &&
  (match category with
   | none => true
   | some c => if c = "" then true else t.category == c) &&
  (match status with
   | none => true
   | some st => if st = "" then true else t.status == st) &&
  (match priority with
   | none => true
   | some p => if p = "" then true else t.priority == p)

/-- Ticket sort column resolution: the allow-list is
{created_at, priority}; anything else falls back to `created_at`. -/
inductive TicketSortCol
  | createdAt
  | priorityCol
deriving Repr, DecidableEq

def ticketSortCol (sort_by : String) : TicketSortCol :=
  if sort_by = "created_at" then .createdAt
  else if sort_by = "priority" then .priorityCol
  else .createdAt

/-- Comparison `≤` on the chosen ticket sort column. -/
def ticketColLe (c : TicketSortCol) (a b : Ticket) : Bool :=
  match c with
  | .createdAt => decide (a.created_at ≤ b.created_at)
  | .priorityCol => charListLe a.priority.data b.priority.data

/-- Model of `sort_order == "asc"`: only the exact string `"asc"` selects ascending. -/
def sortAsc (sort_order : String) : Bool := sort_order = "asc"

/-- Model of `crud.search_and_filter_tickets`: filter, count before pagination,
sort, then `offset skip` / `limit`. -/
def search_and_filter_tickets (db : TicketDB) (search : Option PyStr)
    (category status priority : Option String)
    (sort_by sort_order : String) (skip limit : Nat) : List Ticket × Nat :=
  let filtered := db.tickets.filter (ticketMatches search category status priority)
  let total := filtered.length
  let col := ticketSortCol sort_by
  let sorted :=
    if sortAsc sort_order then orderBy (ticketColLe col) filtered
    else orderBy (fun a b => ticketColLe col b a) filtered
  ((sorted.drop skip).take limit, total)

/-- Row of the `api_requests` table (`models.ApiRequest`). -/
structure ApiRequest where
  id : Nat
  method : String
  path : PyStr
  response_code : Nat
  response_time : ℚ
  user_agent : Option String
  ip_address : Option String
  created_at : Nat
deriving Repr, DecidableEq

/-- Model of `schemas.ApiRequestCreate`. -/
structure ApiRequestCreate where
  method : String
  path : PyStr
  response_code : Nat
  response_time : ℚ
  user_agent : Option String
  ip_address : Option String
deriving Repr, DecidableEq

/-- The API-request store. -/
structure ApiDB where
  requests : List ApiRequest
  nextId : Nat
deriving Repr, DecidableEq

def emptyApiDB : ApiDB := ⟨[], 1⟩

/-- Model of `crud.create_api_request`: insert the submitted fields verbatim (the
method is NOT normalized at creation). -/
def create_api_request (db : ApiDB) (api_request : ApiRequestCreate) (now : Nat) :
    ApiDB × ApiRequest :=
  let r : ApiRequest :=
    { id := db.nextId
      method := api_request.method
      path := api_request.path
      response_code := api_request.response_code
      response_time := api_request.response_time
      user_agent := api_request.user_agent
      ip_address := api_request.ip_address
      created_at := now }
  (⟨db.requests ++ [r], db.nextId + 1⟩, r)

/-- Model of `crud.get_api_request`. -/
def get_api_request (db : ApiDB) (request_id : Nat) : Option ApiRequest :=
  db.requests.find? (fun r => r.id == request_id)

/-- The conjunction of filters of `crud.list_and_filter_api_requests`.
`method` compares the stored value against `method.upper()` exactly;
`response_code = 0` is falsy in Python and imposes nothing; the
response-time bounds use `is not None`, so they always apply when
supplied. -/
def apiMatches (method : Option String) (response_code : Option Nat)
    (min_response_time max_response_time : Option ℚ)
    (path_contains : Option PyStr) (r : ApiRequest) : Bool :=
  (match method with
   | none => true
   | some m => if m = "" then true else r.method == strUpper m) &&
  (match response_code with
   | none => true
   | some c => if c = 0 then true else r.response_code == c) &&
  (match min_response_time with
   | none => true
   | some v => decide (v ≤ r.response_time)) &&
  (match max_response_time with
   | none => true
   | some v => decide (r.response_time ≤ v)) &&
  (match path_contains with
   | none => true
   | some p => if p = [] then true else ilike r.path p)

/-- API-request sort column resolution: the allow-list is
{created_at, response_time}; anything else falls back to `created_at`. -/
inductive ApiSortCol
  | createdAt
  | responseTime
deriving Repr, DecidableEq

def apiSortCol (sort_by : String) : ApiSortCol :=
  if sort_by = "response_time" then .responseTime
  else if sort_by = "created_at" then .createdAt
  else .createdAt

/-- Comparison `≤` on the chosen API-request sort column. -/
def apiColLe (c : ApiSortCol) (a b : ApiRequest) : Bool :=
  match c with
  | .createdAt => decide (a.created_at ≤ b.created_at)
  | .responseTime => decide (a.response_time ≤ b.response_time)

/-- Model of `crud.list_and_filter_api_requests`: filter, count before pagination,
sort, then `offset skip` / `limit`. -/
def list_and_filter_api_requests (db : ApiDB) (method : Option String)
    (response_code : Option Nat) (min_response_time max_response_time : Option ℚ)
    (path_contains : Option PyStr)
    (sort_by sort_order : String) (skip limit : Nat) : List ApiRequest × Nat :=
  let filtered := db.requests.filter
    (apiMatches method response_code min_response_time max_response_time path_contains)
  let total := filtered.length
  let col := apiSortCol sort_by
  let sorted :=
    if sortAsc sort_order then orderBy (apiColLe col) filtered
    else orderBy (fun a b => apiColLe col b a) filtered
  ((sorted.drop skip).take limit, total)

/-! ### Helper lemmas about the store primitives -/

theorem mem_updateFirst (p : α → Bool) (f : α → α) (l : List α) (a : α)
    (ha : a ∈ updateFirst p f l) : a ∈ l ∨ ∃ b ∈ l, a = f b := by
  induction l with
  | nil => simp [updateFirst] at ha
  | cons b bs ih =>
    simp only [updateFirst] at ha
    split at ha
    · rcases List.mem_cons.mp ha with h | h
      · exact Or.inr ⟨b, List.mem_cons_self b bs, h⟩
      · exact Or.inl (List.mem_cons_of_mem b h)
    · rcases List.mem_cons.mp ha with h | h
      · exact Or.inl (h ▸ List.mem_cons_self b bs)
      · rcases ih h with h' | ⟨c, hc, hc'⟩
        · exact Or.inl (List.mem_cons_of_mem b h')
        · exact Or.inr ⟨c, List.mem_cons_of_mem b hc, hc'⟩

theorem mem_updateFirst_iff_of_ne (p : α → Bool) (f : α → α) (l : List α) (a : α)
    (ha : p a = false) (hf : ∀ b, p (f b) = p b) :
    a ∈ updateFirst p f l ↔ a ∈ l := by
  induction l with
  | nil => simp [updateFirst]
  | cons b bs ih =>
    simp only [updateFirst]
    split
    · rename_i hpb
      constructor
      · intro h
        rcases List.mem_cons.mp h with h' | h'
        · exact absurd (h' ▸ (hf b).trans hpb) (by simp [ha])
        · exact List.mem_cons_of_mem b h'
      · intro h
        rcases List.mem_cons.mp h with h' | h'
        · exact absurd (h' ▸ hpb) (by simp [ha])
        · exact List.mem_cons_of_mem _ h'
    · simp only [List.mem_cons, ih]

theorem updateFirst_congr_id (p : α → Bool) (f : α → α) (l : List α)
    (hf : ∀ b, f b = b) : updateFirst p f l = l := by
  induction l with
  | nil => rfl
  | cons b bs ih => simp only [updateFirst, hf b, ih, ite_self]

theorem length_updateFirst (p : α → Bool) (f : α → α) (l : List α) :
    (updateFirst p f l).length = l.length := by
  induction l with
  | nil => rfl
  | cons b bs ih =>
    simp only [updateFirst]
    split <;> simp [ih]

theorem mem_insertOrdered (le : α → α → Bool) (a b : α) (l : List α) :
    b ∈ insertOrdered le a l ↔ b = a ∨ b ∈ l := by
  induction l with
  | nil => simp [insertOrdered]
  | cons c cs ih =>
    simp only [insertOrdered]
    split
    · simp [List.mem_cons]
    · simp only [List.mem_cons, ih]
      tauto

theorem length_insertOrdered (le : α → α → Bool) (a : α) (l : List α) :
    (insertOrdered le a l).length = l.length + 1 := by
  induction l with
  | nil => rfl
  | cons c cs ih =>
    simp only [insertOrdered]
    split <;> simp [ih]

theorem mem_orderBy (le : α → α → Bool) (a : α) (l : List α) :
    a ∈ orderBy le l ↔ a ∈ l := by
  induction l with
  | nil => simp [orderBy]
  | cons b bs ih =>
    simp only [orderBy, mem_insertOrdered, List.mem_cons, ih]

theorem length_orderBy (le : α → α → Bool) (l : List α) :
    (orderBy le l).length = l.length := by
  induction l with
  | nil => rfl
  | cons b bs ih => simp only [orderBy, length_insertOrdered, ih, List.length_cons]

/-! ### C1, C8, C10 — the classifier -/

/-- C1: for every title and description, `classify_text` agrees with the
specification's reference classifier (lowercase the concatenation; category
by the bug / feature_request / billing keyword groups in that order, else
support; priority high on the urgency keywords, else medium), and the enum
values "other" and "low" are never returned. -/
theorem classify_text_matches_reference (title description : PyStr) :
    classify_text title description = classifyReference title description ∧
    (classify_text title description).1 ≠ "other" ∧
    (classify_text title description).2 ≠ "low" := by
  refine ⟨rfl, ?_, ?_⟩ <;>
  · simp only [classify_text]
    split_ifs <;> decide

/-- C8: classification is invariant under letter-case changes of the title
and the description. -/
theorem classify_text_case_invariant (t1 d1 t2 d2 : PyStr)
    (ht : pyLower t1 = pyLower t2) (hd : pyLower d1 = pyLower d2) :
    classify_text t1 d1 = classify_text t2 d2 := by
  have htext : pyLower (t1 ++ ' ' :: d1) = pyLower (t2 ++ ' ' :: d2) := by
    simp only [pyLower, List.map_append, List.map_cons] at ht hd ⊢
    rw [ht, hd]
  unfold classify_text
  rw [htext]

theorem classify_text_case_invariant_witness :
    classify_text "URGENT Error".data "".data
      = classify_text "urgent error".data "".data :=
  classify_text_case_invariant _ _ _ _ (by decide) (by decide)

/-- C10: keyword matching is substring containment, not whole-word
matching: whenever a keyword (here "add", resp. "bill") occurs anywhere in
the lowercased concatenation — also inside a longer word — and no
earlier-priority keyword group matches, the corresponding category is
assigned exactly as if the keyword stood alone. -/
theorem classify_text_substring_matching (title description : PyStr) :
    (kwAny (pyLower (title ++ ' ' :: description))
        ["error", "exception", "traceback", "stacktrace"] = false →
      hasSub (pyLower (title ++ ' ' :: description)) "add".data = true →
      (classify_text title description).1 = "feature_request") ∧
    (kwAny (pyLower (title ++ ' ' :: description))
        ["error", "exception", "traceback", "stacktrace"] = false →
      kwAny (pyLower (title ++ ' ' :: description))
        ["feature", "enhancement", "add", "support"] = false →
      hasSub (pyLower (title ++ ' ' :: description)) "bill".data = true →
      (classify_text title description).1 = "billing") := by
  constructor
  · intro hbug hadd
    have hfeat : kwAny (pyLower (title ++ ' ' :: description))
        ["feature", "enhancement", "add", "support"] = true := by
      simp only [kwAny, List.any_cons, List.any_nil, Bool.or_eq_true]
      exact Or.inr (Or.inr (Or.inl hadd))
    unfold classify_text
    simp only [hbug, hfeat, Bool.false_eq_true, if_false, if_true]
  · intro hbug hfeat hbill
    have hb : kwAny (pyLower (title ++ ' ' :: description))
        ["bill", "invoice", "payment", "charge"] = true := by
      simp only [kwAny, List.any_cons, List.any_nil, Bool.or_eq_true]
      exact Or.inl hbill
    unfold classify_text
    simp only [hbug, hfeat, hb, Bool.false_eq_true, if_false, if_true]

theorem classify_text_substring_matching_witness :
    (classify_text "Change address".data "".data).1 = "feature_request" ∧
    (classify_text "".data "billion dollars".data).1 = "billing" :=
  ⟨(classify_text_substring_matching _ _).1 (by decide) (by decide),
   (classify_text_substring_matching _ _).2 (by decide) (by decide) (by decide)⟩

/-! ### C2, C7, C9 — the query engine -/

/-- C2: for every query specification and every stored collection, the
returned `total` equals the number of records satisfying the conjunction
of all supplied filters — a quantity independent of `skip` and `limit` —
and at most `limit` items are returned; likewise for the API-request
listing. -/
theorem total_counts_filtered_before_pagination :
    (∀ (db : TicketDB) search category status priority sort_by sort_order skip limit,
      (search_and_filter_tickets db search category status priority
          sort_by sort_order skip limit).2
        = (db.tickets.filter (ticketMatches search category status priority)).length ∧
      (search_and_filter_tickets db search category status priority
          sort_by sort_order skip limit).1.length ≤ limit) ∧
    (∀ (db : ApiDB) method response_code min_response_time max_response_time
        path_contains sort_by sort_order skip limit,
      (list_and_filter_api_requests db method response_code min_response_time
          max_response_time path_contains sort_by sort_order skip limit).2
        = (db.requests.filter (apiMatches method response_code min_response_time
            max_response_time path_contains)).length ∧
      (list_and_filter_api_requests db method response_code min_response_time
          max_response_time path_contains sort_by sort_order skip limit).1.length ≤ limit) := by
  constructor
  · intro db search category status priority sort_by sort_order skip limit
    refine ⟨rfl, ?_⟩
    simp only [search_and_filter_tickets]
    split <;> simp [List.length_take]
  · intro db method response_code min_response_time max_response_time
      path_contains sort_by sort_order skip limit
    refine ⟨rfl, ?_⟩
    simp only [list_and_filter_api_requests]
    split <;> simp [List.length_take]

/-- C7: a `sort_by` value outside the allow-list ({created_at, priority}
for tickets, {created_at, response_time} for API requests) never produces
an error: the call returns exactly the same result as sorting by
`created_at` with the same direction, filters, skip and limit. -/
theorem unknown_sort_key_falls_back (sort_by : String) :
    (sort_by ≠ "created_at" → sort_by ≠ "priority" →
      ∀ (db : TicketDB) search category status priority sort_order skip limit,
        search_and_filter_tickets db search category status priority
            sort_by sort_order skip limit
          = search_and_filter_tickets db search category status priority
            "created_at" sort_order skip limit) ∧
    (sort_by ≠ "created_at" → sort_by ≠ "response_time" →
      ∀ (db : ApiDB) method response_code min_response_time max_response_time
          path_contains sort_order skip limit,
        list_and_filter_api_requests db method response_code min_response_time
            max_response_time path_contains sort_by sort_order skip limit
          = list_and_filter_api_requests db method response_code min_response_time
            max_response_time path_contains "created_at" sort_order skip limit) := by
  constructor
  · intro h1 h2 db search category status priority sort_order skip limit
    have hcol : ticketSortCol sort_by = ticketSortCol "created_at" := by
      unfold ticketSortCol
      rw [if_neg h1, if_neg h2, if_pos rfl]
    unfold search_and_filter_tickets
    rw [hcol]
  · intro h1 h2 db method response_code min_response_time max_response_time
      path_contains sort_order skip limit
    have hcol : apiSortCol sort_by = apiSortCol "created_at" := by
      unfold apiSortCol
      rw [if_neg h2, if_neg h1, if_neg (by decide : ¬("created_at" : String) = "response_time"),
        if_pos rfl]
    unfold list_and_filter_api_requests
    rw [hcol]

def sampleTicketDB : TicketDB :=
  (create_ticket (create_ticket emptyTicketDB
    ⟨"Payment issue".data, "cannot process payment".data, none⟩ 10).1
    ⟨"Login problem".data, "urgent".data, none⟩ 20).1

def sampleApiDB : ApiDB :=
  (create_api_request (create_api_request emptyApiDB
    ⟨"GET", "/api/users".data, 200, 1/10, none, none⟩ 5).1
    ⟨"get", "/api/tickets".data, 404, 3/10, none, none⟩ 6).1

theorem unknown_sort_key_falls_back_witness :
    search_and_filter_tickets sampleTicketDB none none none none "bogus" "desc" 0 5
      = search_and_filter_tickets sampleTicketDB none none none none "created_at" "desc" 0 5 ∧
    list_and_filter_api_requests sampleApiDB none none none none none "bogus" "desc" 0 5
      = list_and_filter_api_requests sampleApiDB none none none none none "created_at" "desc" 0 5 :=
  ⟨(unknown_sort_key_falls_back "bogus").1 (by decide) (by decide)
      sampleTicketDB none none none none "desc" 0 5,
   (unknown_sort_key_falls_back "bogus").2 (by decide) (by decide)
      sampleApiDB none none none none none "desc" 0 5⟩

/-- C9: only the exact string "asc" selects ascending order; every other
`sort_order` value ("ASC", "descending", the empty string, ...) is
processed without error and yields exactly the descending result. -/
theorem sort_order_defaults_to_desc (sort_order : String) :
    sortAsc "asc" = true ∧
    (sort_order ≠ "asc" →
      sortAsc sort_order = false ∧
      (∀ (db : TicketDB) search category status priority sort_by skip limit,
        search_and_filter_tickets db search category status priority
            sort_by sort_order skip limit
          = search_and_filter_tickets db search category status priority
            sort_by "desc" skip limit) ∧
      (∀ (db : ApiDB) method response_code min_response_time max_response_time
          path_contains sort_by skip limit,
        list_and_filter_api_requests db method response_code min_response_time
            max_response_time path_contains sort_by sort_order skip limit
          = list_and_filter_api_requests db method response_code min_response_time
            max_response_time path_contains sort_by "desc" skip limit)) := by
  refine ⟨rfl, fun h => ⟨?_, ?_, ?_⟩⟩
  · simp [sortAsc, h]
  · intro db search category status priority sort_by skip limit
    have hso : sortAsc sort_order = sortAsc "desc" := by simp [sortAsc, h]
    unfold search_and_filter_tickets
    rw [hso]
  · intro db method response_code min_response_time max_response_time
      path_contains sort_by skip limit
    have hso : sortAsc sort_order = sortAsc "desc" := by simp [sortAsc, h]
    unfold list_and_filter_api_requests
    rw [hso]

theorem sort_order_defaults_to_desc_witness :
    sortAsc "asc" = true ∧
    (sortAsc "ASC" = false ∧
      search_and_filter_tickets sampleTicketDB none none none none "created_at" "ASC" 0 5
        = search_and_filter_tickets sampleTicketDB none none none none "created_at" "desc" 0 5 ∧
      list_and_filter_api_requests sampleApiDB none none none none none "created_at" "ASC" 0 5
        = list_and_filter_api_requests sampleApiDB none none none none none "created_at" "desc" 0 5) :=
  ⟨(sort_order_defaults_to_desc "ASC").1,
   ⟨((sort_order_defaults_to_desc "ASC").2 (by decide)).1,
    ((sort_order_defaults_to_desc "ASC").2 (by decide)).2.1
      sampleTicketDB none none none none "created_at" 0 5,
    ((sort_order_defaults_to_desc "ASC").2 (by decide)).2.2
      sampleApiDB none none none none none "created_at" 0 5⟩⟩

/-! ### C3 — the resolved_at / status invariant -/

/-- One ticket-store operation, as offered by the service layer. -/
inductive TicketOp
  | createOp (ticket_in : TicketCreate) (now : Nat)
  | resolveOp (ticket_id : Nat) (now : Nat)
  | updateOp (ticket_id : Nat) (u : TicketUpdate)
  | deleteOp (ticket_id : Nat)
deriving Repr

def applyTicketOp (db : TicketDB) : TicketOp → TicketDB
  | .createOp ticket_in now => (create_ticket db ticket_in now).1
  | .resolveOp ticket_id now => (resolve_ticket db ticket_id now).2
  | .updateOp ticket_id u => (update_ticket db ticket_id u).2
  | .deleteOp ticket_id => (delete_ticket db ticket_id).2

def applyTicketOps (db : TicketDB) (ops : List TicketOp) : TicketDB :=
  ops.foldl applyTicketOp db

/-- The resolution-timestamp invariant of §3 of the specification. -/
def resolvedInv (db : TicketDB) : Prop :=
  ∀ t ∈ db.tickets, (t.resolved_at ≠ none ↔ t.status = "resolved")

/-- An operation whose update payload leaves `status` unset. -/
def statusSafe : TicketOp → Bool
  | .updateOp _ u => u.status == none
  | _ => true

/-- C3 counterexample: starting from the empty store, create a ticket and
then update only its status to "resolved"; the stored ticket then has
status resolved while `resolved_at` stays null, violating the claimed
biconditional. -/
theorem resolved_invariant_counterexample :
    ∃ t ∈ ((update_ticket
        (create_ticket emptyTicketDB ⟨"a".data, "b".data, none⟩ 0).1 1
        { status := some "resolved" }).2).tickets,
      ¬(t.resolved_at ≠ none ↔ t.status = "resolved") := by decide

theorem applyTicketOp_resolvedInv (db : TicketDB) (hdb : resolvedInv db)
    (op : TicketOp) (hop : statusSafe op = true) :
    resolvedInv (applyTicketOp db op) := by
  cases op with
  | createOp ticket_in now =>
    intro t ht
    simp only [applyTicketOp, create_ticket, List.mem_append, List.mem_singleton] at ht
    rcases ht with ht | ht
    · exact hdb t ht
    · subst ht
      simp
  | resolveOp ticket_id now =>
    intro t ht
    simp only [applyTicketOp, resolve_ticket] at ht
    split at ht
    · exact hdb t ht
    · rcases mem_updateFirst _ _ _ _ ht with h | ⟨b, _, hb⟩
      · exact hdb t h
      · subst hb
        simp [resolveFields]
  | updateOp ticket_id u =>
    intro t ht
    simp only [statusSafe, beq_iff_eq] at hop
    simp only [applyTicketOp, update_ticket] at ht
    split at ht
    · exact hdb t ht
    · rcases mem_updateFirst _ _ _ _ ht with h | ⟨b, hb, hb'⟩
      · exact hdb t h
      · subst hb'
        have : (applyUpdate u b).resolved_at = b.resolved_at := rfl
        rw [this, show (applyUpdate u b).status = b.status by
          simp [applyUpdate, hop]]
        exact hdb b hb
  | deleteOp ticket_id =>
    intro t ht
    simp only [applyTicketOp, delete_ticket] at ht
    split at ht
    · exact hdb t ht
    · exact hdb t ((List.eraseP_sublist _).mem ht)

theorem applyTicketOps_resolvedInv (db : TicketDB) (hdb : resolvedInv db)
    (ops : List TicketOp) (h : ∀ op ∈ ops, statusSafe op = true) :
    resolvedInv (applyTicketOps db ops) := by
  induction ops generalizing db with
  | nil => exact hdb
  | cons op ops ih =>
    exact ih _ (applyTicketOp_resolvedInv db hdb op (h op (List.mem_cons_self op ops)))
      (fun o ho => h o (List.mem_cons_of_mem op ho))

/-- C3 amended: after every sequence of create_ticket, resolve_ticket,
delete_ticket and update_ticket operations in which every update leaves
the status field unset, every stored ticket satisfies: resolved_at is
non-null iff status is "resolved".  (An update_ticket that supplies the
status field can violate the biconditional, since update never writes
resolved_at — see the counterexample.) -/
theorem resolved_iff_status_invariant (ops : List TicketOp)
    (h : ∀ op ∈ ops, statusSafe op = true) :
    resolvedInv (applyTicketOps emptyTicketDB ops) :=
  applyTicketOps_resolvedInv emptyTicketDB (by intro t ht; simp [emptyTicketDB] at ht)
    ops h

theorem resolved_iff_status_invariant_witness :
    resolvedInv (applyTicketOps emptyTicketDB
      [.createOp ⟨"an error".data, "urgent".data, none⟩ 0,
       .createOp ⟨"add export".data, "csv please".data, none⟩ 1,
       .resolveOp 1 5,
       .updateOp 2 { title := some "new title".data },
       .deleteOp 2]) :=
  resolved_iff_status_invariant _ (by decide)

/-! ### C5 — partial update frame conditions -/

def sampleTicket1 : Ticket :=
  ⟨1, "Payment issue".data, "cannot process payment".data,
    "billing", "medium", "open", none, 10, none⟩

/-- C5: for an existing ticket id, update_ticket overwrites exactly the
fields supplied in the payload and leaves every unset field, the row's
identity/timestamps, every other ticket, and the id counter unchanged; an
all-unset payload is accepted as a pure no-op (returning the unchanged
ticket), never an error. -/
theorem update_ticket_frame (db : TicketDB) (ticket_id : Nat) (u : TicketUpdate)
    (t : Ticket) (hget : get_ticket db ticket_id = some t) :
    (update_ticket db ticket_id u).1 = some (applyUpdate u t) ∧
    (u = {} → update_ticket db ticket_id u = (some t, db)) ∧
    (∀ t', t' ∈ db.tickets → t'.id ≠ ticket_id →
      t' ∈ (update_ticket db ticket_id u).2.tickets) ∧
    (∀ t', t' ∈ (update_ticket db ticket_id u).2.tickets → t'.id ≠ ticket_id →
      t' ∈ db.tickets) ∧
    (update_ticket db ticket_id u).2.tickets.length = db.tickets.length ∧
    (update_ticket db ticket_id u).2.nextId = db.nextId ∧
    (applyUpdate u t).id = t.id ∧
    (applyUpdate u t).created_at = t.created_at ∧
    (applyUpdate u t).resolved_at = t.resolved_at ∧
    (u.title = none → (applyUpdate u t).title = t.title) ∧
    (∀ v, u.title = some v → (applyUpdate u t).title = v) ∧
    (u.description = none → (applyUpdate u t).description = t.description) ∧
    (∀ v, u.description = some v → (applyUpdate u t).description = v) ∧
    (u.reporter_email = none → (applyUpdate u t).reporter_email = t.reporter_email) ∧
    (∀ v, u.reporter_email = some v → (applyUpdate u t).reporter_email = v) ∧
    (u.category = none → (applyUpdate u t).category = t.category) ∧
    (∀ v, u.category = some v → (applyUpdate u t).category = v) ∧
    (u.priority = none → (applyUpdate u t).priority = t.priority) ∧
    (∀ v, u.priority = some v → (applyUpdate u t).priority = v) ∧
    (u.status = none → (applyUpdate u t).status = t.status) ∧
    (∀ v, u.status = some v → (applyUpdate u t).status = v) := by
  have hupd : update_ticket db ticket_id u
      = (some (applyUpdate u t),
          ⟨updateFirst (fun x => x.id == ticket_id) (applyUpdate u) db.tickets,
            db.nextId⟩) := by
    unfold update_ticket
    rw [hget]
  refine ⟨by rw [hupd], ?_, ?_, ?_, ?_, by rw [hupd], rfl, rfl, rfl,
    fun h => by simp [applyUpdate, h], fun v h => by simp [applyUpdate, h],
    fun h => by simp [applyUpdate, h], fun v h => by simp [applyUpdate, h],
    fun h => by simp [applyUpdate, h], fun v h => by simp [applyUpdate, h],
    fun h => by simp [applyUpdate, h], fun v h => by simp [applyUpdate, h],
    fun h => by simp [applyUpdate, h], fun v h => by simp [applyUpdate, h],
    fun h => by simp [applyUpdate, h], fun v h => by simp [applyUpdate, h]⟩
  · intro hu
    subst hu
    rw [hupd, show updateFirst (fun x => x.id == ticket_id)
        (applyUpdate {}) db.tickets = db.tickets from
      updateFirst_congr_id _ _ _ (fun b => rfl)]
    rfl
  · intro t' ht' hne
    rw [hupd]
    exact (mem_updateFirst_iff_of_ne (fun x => x.id == ticket_id) (applyUpdate u)
      db.tickets t' (beq_eq_false_iff_ne.mpr hne) (fun b => rfl)).mpr ht'
  · intro t' ht' hne
    rw [hupd] at ht'
    exact (mem_updateFirst_iff_of_ne (fun x => x.id == ticket_id) (applyUpdate u)
      db.tickets t' (beq_eq_false_iff_ne.mpr hne) (fun b => rfl)).mp ht'
  · rw [hupd]
    exact length_updateFirst _ _ _

theorem update_ticket_frame_witness :
    (update_ticket sampleTicketDB 1 { priority := some "high" }).1
      = some (applyUpdate { priority := some "high" } sampleTicket1) ∧
    update_ticket sampleTicketDB 1 ({} : TicketUpdate)
      = (some sampleTicket1, sampleTicketDB) :=
  ⟨(update_ticket_frame sampleTicketDB 1 { priority := some "high" }
      sampleTicket1 (by decide)).1,
   (update_ticket_frame sampleTicketDB 1 {} sampleTicket1 (by decide)).2.1 rfl⟩

/-! ### C6 — delete semantics -/

theorem find?_eraseP_id_eq_none (l : List Ticket) (tid : Nat)
    (h : (l.map Ticket.id).Nodup) :
    (l.eraseP (fun t => t.id == tid)).find? (fun t => t.id == tid) = none := by
  induction l with
  | nil => rfl
  | cons a as ih =>
    simp only [List.map_cons, List.nodup_cons] at h
    by_cases hpa : a.id = tid
    · rw [List.eraseP_cons_of_pos (by simpa using hpa), List.find?_eq_none]
      intro x hx
      simp only [beq_iff_eq]
      intro hxid
      exact h.1 (hpa ▸ hxid ▸ List.mem_map_of_mem Ticket.id hx)
    · rw [List.eraseP_cons_of_neg (by simpa using hpa),
        List.find?_cons_of_neg _ (by simpa using hpa)]
      exact ih h.2

/-- C6: delete_ticket returns true iff a ticket with the id existed (and
then removes exactly one row); on a store with unique primary keys, any
further delete of the same id returns false and leaves the store
untouched — repeated deletion is a benign no-op, never an error. -/
theorem delete_ticket_true_iff_and_idempotent (db : TicketDB) (ticket_id : Nat)
    (hids : (db.tickets.map Ticket.id).Nodup) :
    ((delete_ticket db ticket_id).1 = true ↔ ∃ t ∈ db.tickets, t.id = ticket_id) ∧
    ((delete_ticket db ticket_id).1 = true →
      (delete_ticket db ticket_id).2.tickets.length + 1 = db.tickets.length) ∧
    ((delete_ticket db ticket_id).1 = false → (delete_ticket db ticket_id).2 = db) ∧
    ((delete_ticket db ticket_id).1 = true →
      delete_ticket (delete_ticket db ticket_id).2 ticket_id
        = (false, (delete_ticket db ticket_id).2)) := by
  cases hfind : get_ticket db ticket_id with
  | none =>
    have hdel : delete_ticket db ticket_id = (false, db) := by
      unfold delete_ticket
      rw [hfind]
    have hfind' : db.tickets.find? (fun t => t.id == ticket_id) = none := hfind
    rw [hdel]
    refine ⟨⟨fun h => Bool.noConfusion h, fun ⟨t, ht, hid⟩ => ?_⟩,
      fun h => Bool.noConfusion h, fun _ => rfl, fun h => Bool.noConfusion h⟩
    rw [List.find?_eq_none] at hfind'
    exact absurd (by simpa using hid) (hfind' t ht)
  | some a =>
    have hfind' : db.tickets.find? (fun t => t.id == ticket_id) = some a := hfind
    have hdel : delete_ticket db ticket_id
        = (true, ⟨db.tickets.eraseP (fun t => t.id == ticket_id), db.nextId⟩) := by
      unfold delete_ticket
      rw [hfind]
    have hmem : a ∈ db.tickets := List.mem_of_find?_eq_some hfind'
    have hpa := List.find?_some hfind'
    rw [hdel]
    refine ⟨⟨fun _ => ⟨a, hmem, by simpa using hpa⟩, fun _ => rfl⟩, fun _ => ?_,
      fun h => Bool.noConfusion h, fun _ => ?_⟩
    · have hpos : 0 < db.tickets.length := List.length_pos.mpr (by
        intro hnil
        rw [hnil] at hmem
        exact (List.not_mem_nil a) hmem)
      show (db.tickets.eraseP (fun t => t.id == ticket_id)).length + 1
        = db.tickets.length
      rw [List.length_eraseP, if_pos (List.any_eq_true.mpr ⟨a, hmem, hpa⟩)]
      omega
    · have hnone : get_ticket
          (⟨db.tickets.eraseP (fun t => t.id == ticket_id), db.nextId⟩ : TicketDB)
          ticket_id = none :=
        find?_eraseP_id_eq_none db.tickets ticket_id hids
      unfold delete_ticket
      rw [hnone]

theorem delete_ticket_true_iff_and_idempotent_witness :
    ((delete_ticket sampleTicketDB 1).1 = true ↔
        ∃ t ∈ sampleTicketDB.tickets, t.id = 1) ∧
    delete_ticket (delete_ticket sampleTicketDB 1).2 1
      = (false, (delete_ticket sampleTicketDB 1).2) :=
  ⟨(delete_ticket_true_iff_and_idempotent sampleTicketDB 1 (by decide)).1,
   (delete_ticket_true_iff_and_idempotent sampleTicketDB 1 (by decide)).2.2.2 (by decide)⟩

/-! ### C4 — method filter semantics -/

/-- C4 counterexample: a record created with method "get" is stored as
submitted, and its method equals the filter string "get" case-insensitively
(here even verbatim) — yet the listing filtered by method "get" returns no
items and total 0, because the filter compares the stored value against
`"get".upper() = "GET"` exactly. -/
theorem method_filter_case_counterexample :
    ∃ r ∈ (create_api_request emptyApiDB
        ⟨"get", "/a".data, 200, 1, none, none⟩ 0).1.requests,
      pyLower r.method.data = pyLower "get".data ∧
      list_and_filter_api_requests
          (create_api_request emptyApiDB ⟨"get", "/a".data, 200, 1, none, none⟩ 0).1
          (some "get") none none none none "created_at" "desc" 0 100
        = ([], 0) := by decide

/-- C4 amended: for a non-empty method filter `m`, a stored record is
included iff its stored method equals `m.upper()` exactly (a
case-sensitive comparison against the uppercased filter, not a
case-insensitive match), while create_api_request stores the method
exactly as submitted. -/
theorem method_filter_upper_exact (db : ApiDB) (m : String) (r : ApiRequest)
    (hm : m ≠ "") :
    (r ∈ (list_and_filter_api_requests db (some m) none none none none
        "created_at" "desc" 0 db.requests.length).1 ↔
      (r ∈ db.requests ∧ r.method = strUpper m)) ∧
    (∀ (db2 : ApiDB) (inp : ApiRequestCreate) (now : Nat),
      ((create_api_request db2 inp now).2).method = inp.method ∧
      (create_api_request db2 inp now).1.requests
        = db2.requests ++ [(create_api_request db2 inp now).2]) := by
  refine ⟨?_, fun db2 inp now => ⟨rfl, rfl⟩⟩
  simp only [list_and_filter_api_requests]
  rw [if_neg (show ¬(sortAsc "desc" = true) by decide), List.drop_zero,
    List.take_of_length_le (by rw [length_orderBy]; exact List.length_filter_le _ _),
    mem_orderBy, List.mem_filter]
  simp [apiMatches, hm]

def sampleApiReq1 : ApiRequest := ⟨1, "GET", "/api/users".data, 200, 1/10, none, none, 5⟩

theorem method_filter_upper_exact_witness :
    sampleApiReq1 ∈ (list_and_filter_api_requests sampleApiDB (some "get")
        none none none none "created_at" "desc" 0 sampleApiDB.requests.length).1 ↔
      (sampleApiReq1 ∈ sampleApiDB.requests ∧ sampleApiReq1.method = strUpper "get") :=
  (method_filter_upper_exact sampleApiDB "get" sampleApiReq1 (by decide)).1
